import Mathlib

/-!
Shallow embedding of the ComfyUI workflow-patching core of the M2M
repository (`M2M_flask/app.py` and `backend/scripts/generate_image.py`).

A workflow is the JSON document loaded by `load_workflow`: a Python dict
mapping node-id strings to node dicts.  We embed it as an insertion-ordered
association list, matching Python dict iteration order.  Of each node dict
we embed exactly the fields the code reads: `class_type`, `inputs` and
`_meta`/`title`.  Input values touched by the code under verification
(`image`, `prompt`, `text`, `filename_prefix`, `format`) are all strings,
so input values are embedded as strings.  `Option` on `inputs` and `meta`
models a missing key (Python `.get` returning `None`); a JSON `null` value
behaves identically at every read site embedded here (`.get(..) or {}`,
direct subscripting), so it is folded into `none` as well.

Fallible operations (a Python statement that can raise `KeyError`,
`RuntimeError` or `TypeError`) are embedded in `Except String`.
-/

/-- Views an `Except` as a sum, to derive decidable equality. -/
def exceptToSum : Except ε α → ε ⊕ α
  | .error e => .inl e
  | .ok a => .inr a

instance {ε α : Type} [DecidableEq ε] [DecidableEq α] : DecidableEq (Except ε α) :=
  fun x y =>
    decidable_of_iff (exceptToSum x = exceptToSum y)
      (by cases x <;> cases y <;> simp [exceptToSum])

/-- Association list of input field names to (string) values, embedding a
node's `inputs` dict. -/
abbrev Inputs := List (String × String)

/-- Embeds the `_meta` dict; only its `title` entry is ever read. -/
structure NodeMeta where
  title : Option String
deriving DecidableEq

/-- One node record of the workflow graph. -/
structure Node where
  class_type : Option String
  inputs : Option Inputs
  meta : Option NodeMeta
deriving DecidableEq

/-- The workflow graph: node-id/node pairs in dict insertion order. -/
abbrev Workflow := List (String × Node)

/-- Dict lookup `workflow[node_id]` / `workflow.get(node_id)`: first entry
with the given key (Python dicts have unique keys). -/
def wGet? : Workflow → String → Option Node
  | [], _ => none
  | (k, n) :: rest, id => if k = id then some n else wGet? rest id

/-- Dict assignment `workflow[node_id] = node`: replace the first entry
with the given key, leaving position and all other entries unchanged. -/
def setNode : Workflow → String → Node → Workflow
  | [], _, _ => []
  | (k, m) :: rest, id, n =>
      if k = id then (k, n) :: rest else (k, m) :: setNode rest id n

/-- Dict lookup inside an `inputs` dict. -/
def inputLookup : Inputs → String → Option String
  | [], _ => none
  | (k2, v) :: rest, k => if k2 = k then some v else inputLookup rest k

/-- Python `key in inputs`. -/
def hasKey (inp : Inputs) (k : String) : Bool :=
  (inputLookup inp k).isSome

/-- Dict assignment `inputs[k] = v`: overwrite in place if the key exists,
otherwise append (Python dict insertion order). -/
def setInput : Inputs → String → String → Inputs
  | [], k, v => [(k, v)]
  | (k2, v2) :: rest, k, v =>
      if k2 = k then (k2, v) :: rest else (k2, v2) :: setInput rest k v

/-- Reads `workflow[id]["inputs"][k]` if all three lookups succeed. -/
def getInput (w : Workflow) (id k : String) : Option String :=
  ((wGet? w id).bind Node.inputs).bind (fun inp => inputLookup inp k)

/-- Python `k in workflow[id].get("inputs", {})`. -/
def node_has_input_key (w : Workflow) (id k : String) : Bool :=
  match (wGet? w id).bind Node.inputs with
  | some inp => hasKey inp k
  | none => false

/-- Keys of the workflow dict are unique (a Python dict invariant). -/
def keysNodup (w : Workflow) : Prop := (w.map Prod.fst).Nodup

/-- Embeds the Python statement `workflow[id]["inputs"][k] = v` as used by
the mutators: raises `KeyError` when the node has no `inputs` dict. -/
def setNodeInput (w : Workflow) (id k v : String) : Except String Workflow :=
  match wGet? w id with
  | none => .error "KeyError: node id"
  | some n =>
    match n.inputs with
    | none => .error "KeyError: inputs"
    | some inp => .ok (setNode w id { n with inputs := some (setInput inp k v) })

/-- Python `str.isdigit` restricted to ASCII digits (the node ids at play). -/
def pyIsDigit (s : String) : Bool := !s.isEmpty && s.data.all Char.isDigit

/-- Python `int(s)` on an all-digit string. -/
def pyInt (s : String) : Nat :=
  s.data.foldl (fun acc c => acc * 10 + (c.toNat - 48)) 0

/-- Python `str.lower` (ASCII case folding; the titles at play are ASCII). -/
def pyLower (s : String) : String := ⟨s.data.map Char.toLower⟩

/-- Python substring test `pat in s`. -/
def strContains (s pat : String) : Bool :=
  s.data.tails.any (pat.data.isPrefixOf ·)

/-- Lexicographic comparison of char lists by code point, as Python
compares strings. -/
def charListLE : List Char → List Char → Bool
  | [], _ => true
  | _ :: _, [] => false
  | a :: as, b :: bs =>
      if a = b then charListLE as bs else decide (a.toNat < b.toNat)

/-- Python string `<=`. -/
def pyStrLE (a b : String) : Bool := charListLE a.data b.data

/-- The sort key comparison of `find_loadimage_nodes`:
`key=lambda x: int(x) if str(x).isdigit() else str(x)`.  Comparing an int
key with a str key is a `TypeError` in Python; this function is only
evaluated on homogeneous pairs (the mixed case errors before sorting). -/
def pyKeyLE (a b : String) : Bool :=
  if pyIsDigit a && pyIsDigit b then decide (pyInt a ≤ pyInt b)
  else pyStrLE a b

/-- Stable insertion of `a` into a sorted list: `a` goes before the first
element not strictly below it, so ties keep original order, as Python's
stable `sorted` does. -/
def insertStable (le : String → String → Bool) (a : String) :
    List String → List String
  | [] => [a]
  | b :: bs =>
      if le b a && !(le a b) then b :: insertStable le a bs else a :: b :: bs

/-- Stable sort by `le`, extensionally the output of Python `sorted` for a
total-preorder key. -/
def insSort (le : String → String → Bool) : List String → List String
  | [] => []
  | a :: as => insertStable le a (insSort le as)

/-- `find_nodes(workflow, class_type)` (identical in both source files). -/
def find_nodes (w : Workflow) (ct : String) : List String :=
  (w.filter (fun p => decide (p.2.class_type = some ct))).map Prod.fst

/-- Python repr quote character, built without a literal quote. -/
def pyQ : String := String.singleton (Char.ofNat 39)

/-- Python `repr` of a list of strings, as interpolated by the f-string of
the structural error message. -/
def pyReprList (l : List String) : String :=
  "[" ++ String.intercalate ", " (l.map (fun s => pyQ ++ s ++ pyQ)) ++ "]"

/-- The `RuntimeError` message of `build_image_workflow` when fewer than
two LoadImage nodes are found. -/
def structErrMsg (found : List String) : String :=
  "LoadImage 노드를 2개 이상 찾지 못했습니다 (found: " ++ pyReprList found ++ ")"

/-- The `RuntimeError` message of `build_video_workflow` when no LoadImage
node is found. -/
def videoErrMsg : String := "LoadImage 노드를 찾지 못했습니다"

/-- The `TypeError` raised by Python `sorted` when it compares an int sort
key with a str sort key. -/
def sortTypeErrMsg : String :=
  "TypeError: int and str sort keys are not comparable"

/-- `find_loadimage_nodes(workflow)` (identical in both source files).
Python `sorted` with key `int(x) if x.isdigit() else x` raises `TypeError`
as soon as an int key is compared with a str key, which happens exactly
when both kinds are present; otherwise it stably sorts by the key. -/
def find_loadimage_nodes (w : Workflow) : Except String (List String) :=
  if (find_nodes w "LoadImage").any pyIsDigit
      && (find_nodes w "LoadImage").any (fun x => !pyIsDigit x) then
    .error sortTypeErrMsg
  else
    .ok (insSort pyKeyLE (find_nodes w "LoadImage"))

/-- `find_first_node(workflow, class_type)` (identical in both files). -/
def find_first_node (w : Workflow) (ct : String) : Option String :=
  (find_nodes w ct).head?

/-- Python `(workflow[node_id].get("_meta") or {}).get("title", "")`. -/
def title_of (w : Workflow) (nid : String) : String :=
  match wGet? w nid with
  | some n => ((n.meta.bind NodeMeta.title)).getD ""
  | none => ""

/-- Python `(workflow[node_id].get("inputs") or {}).get("text", "")`. -/
def text_of (w : Workflow) (nid : String) : String :=
  match wGet? w nid with
  | some n => (inputLookup (n.inputs.getD []) "text").getD ""
  | none => ""

/-- First-tier test of `find_positive_clip_node`:
`"positive" in title.lower()`. -/
def has_positive_title (w : Workflow) (nid : String) : Bool :=
  strContains (pyLower (title_of w nid)) "positive"

/-- Second-tier test of `find_positive_clip_node`:
`text and "negative" not in text.lower()`. -/
def has_untagged_text (w : Workflow) (nid : String) : Bool :=
  let t := text_of w nid
  !t.isEmpty && !strContains (pyLower t) "negative"

/-- `find_positive_clip_node(workflow)` from `M2M_flask/app.py`:
first CLIPTextEncode node with "positive" in its title, else first with
non-empty text not containing "negative", else the first CLIPTextEncode
node, else `None`. -/
def find_positive_clip_node (w : Workflow) : Option String :=
  let clip_nodes := find_nodes w "CLIPTextEncode"
  match clip_nodes.find? (has_positive_title w) with
  | some nid => some nid
  | none =>
    match clip_nodes.find? (has_untagged_text w) with
    | some nid => some nid
    | none => clip_nodes.head?

/-- Specification-side restatement of the claim about
`find_positive_clip_node`, phrased with filters ("the first text-prompt
node such that ...") rather than the source's search loops. -/
def find_positive_clip_node_spec (w : Workflow) : Option String :=
  let clip := find_nodes w "CLIPTextEncode"
  match (clip.filter (has_positive_title w)).head? with
  | some nid => some nid
  | none =>
    match (clip.filter (has_untagged_text w)).head? with
    | some nid => some nid
    | none => clip.head?

/-- Python truthiness of an optional string argument (`if prompt:` with
`prompt=None` default): `None` and `""` are falsy. -/
def optTruthy : Option String → Bool
  | none => false
  | some s => !s.isEmpty

/-- Lines 157-159 of `app.py` (113-115 of the backend script): overwrite
the prompt of the first GeminiImageNode when both the node id and the
prompt argument are truthy. -/
def gemini_step (w : Workflow) (prompt : Option String) : Except String Workflow :=
  match find_first_node w "GeminiImageNode" with
  | some gid =>
      if !gid.isEmpty && optTruthy prompt then
        setNodeInput w gid "prompt" (prompt.getD "")
      else .ok w
  | none => .ok w

/-- Lines 161-166 of `app.py`: on the first SaveImage node, overwrite
`filename_prefix` when the argument is truthy, then force `format` to
"mp4" whenever the inputs already have a `format` key. -/
def save_step_app (w : Workflow) (fp : Option String) : Except String Workflow :=
  match find_first_node w "SaveImage" with
  | none => .ok w
  | some sid =>
    if sid.isEmpty then .ok w
    else
      match (if optTruthy fp then setNodeInput w sid "filename_prefix" (fp.getD "") else .ok w) with
      | .error e => .error e
      | .ok w2 =>
        if node_has_input_key w2 sid "format" then
          setNodeInput w2 sid "format" "mp4"
        else .ok w2

/-- Lines 117-120 of `backend/scripts/generate_image.py`: on the first
SaveImage node, overwrite `filename_prefix` when the argument is truthy.
Unlike the Flask copy there is no `format` override. -/
def save_step_backend (w : Workflow) (fp : Option String) : Except String Workflow :=
  match find_first_node w "SaveImage" with
  | none => .ok w
  | some sid =>
    if sid.isEmpty then .ok w
    else if optTruthy fp then setNodeInput w sid "filename_prefix" (fp.getD "")
    else .ok w

/-- The part of `build_image_workflow` that is character-identical in both
source files (lines 150-159 of `app.py`, 106-115 of the backend script):
require two sorted LoadImage nodes, assign the two image references, then
run the Gemini prompt step.  The loaded template is passed in explicitly
(the source loads it from disk at the top of the function). -/
def build_image_core (w0 : Workflow) (c1 c2 : String) (p : Option String) :
    Except String Workflow :=
  match find_loadimage_nodes w0 with
  | .error e => .error e
  | .ok [] => .error (structErrMsg [])
  | .ok [a] => .error (structErrMsg [a])
  | .ok (n1 :: n2 :: _) =>
    match setNodeInput w0 n1 "image" c1 with
    | .error e => .error e
    | .ok w1 =>
      match setNodeInput w1 n2 "image" c2 with
      | .error e => .error e
      | .ok w2 => gemini_step w2 p

/-- `build_image_workflow` of `M2M_flask/app.py` (lines 147-168). -/
def build_image_workflow (w0 : Workflow) (c1 c2 : String) (p fp : Option String) :
    Except String Workflow :=
  match build_image_core w0 c1 c2 p with
  | .error e => .error e
  | .ok w3 => save_step_app w3 fp

/-- `build_image_workflow` of `backend/scripts/generate_image.py`
(lines 102-122). -/
def build_image_workflow_backend (w0 : Workflow) (c1 c2 : String) (p fp : Option String) :
    Except String Workflow :=
  match build_image_core w0 c1 c2 p with
  | .error e => .error e
  | .ok w3 => save_step_backend w3 fp

/-- Lines 178-180 of `app.py`: overwrite the positive CLIP node's `text`
when both the node id and the prompt are truthy. -/
def video_prompt_step (w : Workflow) (p : Option String) : Except String Workflow :=
  match find_positive_clip_node w with
  | some pid =>
      if !pid.isEmpty && optTruthy p then setNodeInput w pid "text" (p.getD "")
      else .ok w
  | none => .ok w

/-- Lines 182-184 of `app.py`: overwrite the first SaveVideo node's
`filename_prefix` when both the node id and the argument are truthy. -/
def video_save_step (w : Workflow) (fp : Option String) : Except String Workflow :=
  match find_first_node w "SaveVideo" with
  | some sid =>
      if !sid.isEmpty && optTruthy fp then setNodeInput w sid "filename_prefix" (fp.getD "")
      else .ok w
  | none => .ok w

/-- `build_video_workflow` of `M2M_flask/app.py` (lines 170-186). -/
def build_video_workflow (w0 : Workflow) (img : String) (p fp : Option String) :
    Except String Workflow :=
  match find_loadimage_nodes w0 with
  | .error e => .error e
  | .ok [] => .error videoErrMsg
  | .ok (n1 :: _) =>
    match setNodeInput w0 n1 "image" img with
    | .error e => .error e
    | .ok w1 =>
      match video_prompt_step w1 p with
      | .error e => .error e
      | .ok w2 => video_save_step w2 fp

/-- A network request to the remote engine.  The only places the source
issues one (`urllib.request.urlopen`) are `upload_image_to_comfy`
(`POST {base}/upload/image`) and `send_workflow` (`POST {base}/prompt`). -/
inductive NetCall where
  | upload
  | submit
deriving DecidableEq

/-- `build_image_workflow` paired with the list of network calls its body
issues.  The function body (app.py lines 147-168) contains no call to
`urlopen`, `upload_image_to_comfy` or `send_workflow`, so the trace is
empty on every input, including every error path. -/
def build_image_workflow_net (w0 : Workflow) (c1 c2 : String) (p fp : Option String) :
    Except String Workflow × List NetCall :=
  (build_image_workflow w0 c1 c2 p fp, [])

/-- The JSON body of the upload endpoint's response; only `name` and
`subfolder` are read. -/
structure UploadResp where
  name : Option String
  subfolder : Option String
deriving DecidableEq

/-- The response-handling tail of `upload_image_to_comfy` (app.py lines
84-90, backend lines 58-64), applied to the parsed JSON response and the
original display filename.  `result.get('subfolder')` is truthy exactly
for a present, non-empty subfolder; in that branch `result['name']` is a
direct subscript and raises `KeyError` when `name` is absent. -/
def upload_image_to_comfy (resp : UploadResp) (filename : String) :
    Except String String :=
  match resp.subfolder with
  | some sub =>
      if !sub.isEmpty then
        match resp.name with
        | some n => .ok (sub ++ "/" ++ n)
        | none => .error "KeyError: name"
      else .ok (resp.name.getD filename)
  | none => .ok (resp.name.getD filename)

/-- Absence of the cross-mode `format` quirk trigger: the template has no
SaveImage node, or its first SaveImage node has a falsy id, or that node's
inputs have no `format` key. -/
def no_format_quirk (w : Workflow) : Bool :=
  match find_first_node w "SaveImage" with
  | none => true
  | some sid => sid.isEmpty || !(node_has_input_key w sid "format")

/-- A CLIPTextEncode node record that is malformed in the sense of the
robustness claim: no usable `_meta`/`title` (missing or null `_meta`) and
no `text` entry (missing or null `inputs`, or no `text` key). -/
def clip_node_malformed (w : Workflow) (nid : String) : Bool :=
  match wGet? w nid with
  | some n => n.meta.isNone && (inputLookup (n.inputs.getD []) "text").isNone
  | none => true

/-- Node builders and concrete template graphs used by the witness and
counterexample theorems. -/
def loadNode (img : String) : Node :=
  { class_type := some "LoadImage", inputs := some [("image", img)], meta := none }

def saveImageNode (inp : Inputs) : Node :=
  { class_type := some "SaveImage", inputs := some inp, meta := none }

def clipNode (title : Option String) (inp : Option Inputs) : Node :=
  { class_type := some "CLIPTextEncode", inputs := inp,
    meta := title.map (fun s => { title := some s }) }

def gC1 : Workflow := [("5", loadNode "x")]

def gC2 : Workflow := [("9", loadNode "a"), ("10", loadNode "b"), ("2", loadNode "c")]

def gC3mixed : Workflow := [("2", loadNode "a"), ("x", loadNode "b")]

def gC3str : Workflow := [("b", loadNode "a"), ("a", loadNode "b")]

def gC4 : Workflow := [("3", loadNode "o1"), ("7", loadNode "o2")]

def gC4res : Workflow := [("3", loadNode "A"), ("7", loadNode "B")]

def gC5negpos : Workflow :=
  [("n", clipNode (some "Negative Prompt") (some [("text", "bad")])),
   ("p", clipNode (some "Positive Prompt") (some [("text", "good")]))]

def gC5posneg : Workflow :=
  [("p", clipNode (some "Positive Prompt") (some [("text", "good")])),
   ("n", clipNode (some "Negative Prompt") (some [("text", "bad")]))]

def gC6 : Workflow :=
  [("1", loadNode "x"), ("2", loadNode "y"), ("8", saveImageNode [("format", "webp")])]

def gC6res : Workflow :=
  [("1", loadNode "A"), ("2", loadNode "B"), ("8", saveImageNode [("format", "mp4")])]

def gC8 : Workflow :=
  [("1", loadNode "u"), ("2", loadNode "v"), ("9", saveImageNode [("format", "png")])]

def gC8ok : Workflow :=
  [("1", loadNode "u"), ("2", loadNode "v"),
   ("9", saveImageNode [("filename_prefix", "out")])]

def gC10 : Workflow := [("c", clipNode none none)]

lemma insertStable_perm (le : String → String → Bool) (a : String) (l : List String) :
    (insertStable le a l).Perm (a :: l) := by
  induction l with
  | nil => simp [insertStable]
  | cons b bs ih =>
    simp only [insertStable]
    by_cases h : (le b a && !(le a b)) = true
    · rw [if_pos h]
      exact (ih.cons b).trans (List.Perm.swap a b bs)
    · rw [if_neg h]

lemma insSort_perm (le : String → String → Bool) (l : List String) :
    (insSort le l).Perm l := by
  induction l with
  | nil => simp [insSort]
  | cons a as ih =>
    simp only [insSort]
    exact (insertStable_perm le a (insSort le as)).trans (ih.cons a)

lemma insertStable_pairwise {R : String → String → Prop} {le : String → String → Bool}
    (hR : ∀ x y, le x y = true → R x y)
    (htot : ∀ x y, le x y = true ∨ le y x = true)
    (htrans : ∀ x y z, R x y → R y z → R x z)
    (a : String) :
    ∀ l, l.Pairwise R → (insertStable le a l).Pairwise R := by
  intro l
  induction l with
  | nil => intro _; simp [insertStable]
  | cons b bs ih =>
    intro h
    rw [List.pairwise_cons] at h
    obtain ⟨hb, hbs⟩ := h
    simp only [insertStable]
    by_cases hc : (le b a && !(le a b)) = true
    · rw [if_pos hc]
      rw [List.pairwise_cons]
      refine ⟨?_, ih hbs⟩
      intro x hx
      rcases List.mem_cons.mp ((insertStable_perm le a bs).mem_iff.mp hx) with rfl | hxbs
      · exact hR b x (Bool.and_eq_true_iff.mp hc).1
      · exact hb x hxbs
    · rw [if_neg hc]
      have hab : le a b = true := by
        cases hle : le a b with
        | true => rfl
        | false =>
          rcases htot a b with h1 | h1
          · rw [hle] at h1; cases h1
          · exact absurd (by rw [h1, hle]; rfl) hc
      rw [List.pairwise_cons]
      refine ⟨?_, List.pairwise_cons.mpr ⟨hb, hbs⟩⟩
      intro x hx
      rcases List.mem_cons.mp hx with rfl | hxbs
      · exact hR a x hab
      · exact htrans a b x (hR a b hab) (hb x hxbs)

lemma insSort_pairwise {R : String → String → Prop} {le : String → String → Bool}
    (hR : ∀ x y, le x y = true → R x y)
    (htot : ∀ x y, le x y = true ∨ le y x = true)
    (htrans : ∀ x y z, R x y → R y z → R x z)
    (l : List String) : (insSort le l).Pairwise R := by
  induction l with
  | nil => simp [insSort]
  | cons a as ih =>
    simp only [insSort]
    exact insertStable_pairwise hR htot htrans a _ ih

lemma insertStable_congr {le1 le2 : String → String → Bool} (a : String) :
    ∀ l, (∀ y ∈ l, le1 a y = le2 a y ∧ le1 y a = le2 y a) →
      insertStable le1 a l = insertStable le2 a l := by
  intro l
  induction l with
  | nil => intro _; rfl
  | cons b bs ih =>
    intro h
    have hb := h b (List.mem_cons_self b bs)
    simp only [insertStable]
    rw [hb.1, hb.2]
    by_cases hc : (le2 b a && !(le2 a b)) = true
    · rw [if_pos hc, if_pos hc, ih (fun y hy => h y (List.mem_cons_of_mem b hy))]
    · rw [if_neg hc, if_neg hc]

lemma insSort_congr {le1 le2 : String → String → Bool} :
    ∀ l, (∀ x ∈ l, ∀ y ∈ l, le1 x y = le2 x y) → insSort le1 l = insSort le2 l := by
  intro l
  induction l with
  | nil => intro _; rfl
  | cons a as ih =>
    intro h
    simp only [insSort]
    rw [ih (fun x hx y hy =>
      h x (List.mem_cons_of_mem a hx) y (List.mem_cons_of_mem a hy))]
    apply insertStable_congr
    intro y hy
    have hy2 : y ∈ as := (insSort_perm le2 as).mem_iff.mp hy
    exact ⟨h a (List.mem_cons_self a as) y (List.mem_cons_of_mem a hy2),
           h y (List.mem_cons_of_mem a hy2) a (List.mem_cons_self a as)⟩

lemma char_toNat_inj (a b : Char) (h : a.toNat = b.toNat) : a = b := by
  apply Char.ext
  unfold Char.toNat at h
  rcases a with ⟨⟨av⟩, ha⟩
  rcases b with ⟨⟨bv⟩, hb⟩
  simp [UInt32.toNat] at h
  simp
  exact congrArg UInt32.mk (BitVec.eq_of_toNat_eq h)

lemma charListLE_total : ∀ a b : List Char, charListLE a b = true ∨ charListLE b a = true := by
  intro a
  induction a with
  | nil => intro b; left; rfl
  | cons x xs ih =>
    intro b
    cases b with
    | nil => right; rfl
    | cons y ys =>
      simp only [charListLE]
      by_cases hxy : x = y
      · subst hxy
        rw [if_pos rfl, if_pos rfl]
        exact ih ys
      · rw [if_neg hxy, if_neg (fun h => hxy h.symm)]
        rcases Nat.lt_trichotomy x.toNat y.toNat with h | h | h
        · left; exact decide_eq_true h
        · exact absurd (char_toNat_inj x y h) hxy
        · right; exact decide_eq_true h

lemma charListLE_trans :
    ∀ a b c : List Char, charListLE a b = true → charListLE b c = true →
      charListLE a c = true := by
  intro a
  induction a with
  | nil => intro b c _ _; rfl
  | cons x xs ih =>
    intro b c h1 h2
    cases b with
    | nil => simp [charListLE] at h1
    | cons y ys =>
      cases c with
      | nil => simp [charListLE] at h2
      | cons z zs =>
        simp only [charListLE] at h1 h2 ⊢
        by_cases hxy : x = y
        · subst hxy
          rw [if_pos rfl] at h1
          by_cases hyz : x = z
          · subst hyz
            rw [if_pos rfl] at h2
            rw [if_pos rfl]
            exact ih ys zs h1 h2
          · rw [if_neg hyz] at h2
            rw [if_neg hyz]
            exact h2
        · rw [if_neg hxy] at h1
          have hlt1 : x.toNat < y.toNat := of_decide_eq_true h1
          by_cases hyz : y = z
          · subst hyz
            rw [if_neg hxy]
            exact decide_eq_true hlt1
          · rw [if_neg hyz] at h2
            have hlt2 : y.toNat < z.toNat := of_decide_eq_true h2
            have hlt : x.toNat < z.toNat := Nat.lt_trans hlt1 hlt2
            have hxz : x ≠ z := by
              intro h
              subst h
              exact Nat.lt_irrefl _ hlt
            rw [if_neg hxz]
            exact decide_eq_true hlt

lemma wGet?_setNode_self :
    ∀ (w : Workflow) (id : String) (n m : Node),
      wGet? w id = some m → wGet? (setNode w id n) id = some n := by
  intro w id n m
  induction w with
  | nil => intro h; simp [wGet?] at h
  | cons p rest ih =>
    obtain ⟨k, nd⟩ := p
    simp only [wGet?, setNode]
    by_cases hk : k = id
    · rw [if_pos hk]
      intro _
      simp [wGet?, if_pos hk]
    · rw [if_neg hk, if_neg hk]
      intro h
      simp only [wGet?, if_neg hk]
      exact ih h

lemma wGet?_setNode_ne :
    ∀ (w : Workflow) (id : String) (n : Node) (id2 : String),
      id2 ≠ id → wGet? (setNode w id n) id2 = wGet? w id2 := by
  intro w id n id2 hne
  induction w with
  | nil => rfl
  | cons p rest ih =>
    obtain ⟨k, nd⟩ := p
    simp only [setNode]
    by_cases hk : k = id
    · rw [if_pos hk]
      simp only [wGet?]
      rw [if_neg (by rw [hk]; exact fun h => hne h.symm),
          if_neg (by rw [hk]; exact fun h => hne h.symm)]
    · rw [if_neg hk]
      simp only [wGet?]
      by_cases hk2 : k = id2
      · rw [if_pos hk2, if_pos hk2]
      · rw [if_neg hk2, if_neg hk2]
        exact ih

lemma keys_setNode (w : Workflow) (id : String) (n : Node) :
    (setNode w id n).map Prod.fst = w.map Prod.fst := by
  induction w with
  | nil => rfl
  | cons p rest ih =>
    obtain ⟨k, nd⟩ := p
    simp only [setNode]
    by_cases hk : k = id
    · rw [if_pos hk]; rfl
    · rw [if_neg hk]
      simp only [List.map_cons]
      rw [ih]

lemma inputLookup_setInput_self :
    ∀ (inp : Inputs) (k v : String), inputLookup (setInput inp k v) k = some v := by
  intro inp k v
  induction inp with
  | nil => simp [setInput, inputLookup]
  | cons p rest ih =>
    obtain ⟨k2, v2⟩ := p
    simp only [setInput]
    by_cases hk : k2 = k
    · rw [if_pos hk]
      simp [inputLookup, if_pos hk]
    · rw [if_neg hk]
      simp only [inputLookup, if_neg hk]
      exact ih

lemma inputLookup_setInput_ne :
    ∀ (inp : Inputs) (k v k2 : String), k2 ≠ k →
      inputLookup (setInput inp k v) k2 = inputLookup inp k2 := by
  intro inp k v k2 hne
  induction inp with
  | nil =>
    simp only [setInput, inputLookup]
    rw [if_neg (fun h => hne h.symm)]
  | cons p rest ih =>
    obtain ⟨k3, v3⟩ := p
    simp only [setInput]
    by_cases hk : k3 = k
    · rw [if_pos hk]
      simp only [inputLookup]
      by_cases hk2 : k3 = k2
      · exact absurd (hk2.symm.trans hk) hne
      · rw [if_neg hk2, if_neg hk2]
    · rw [if_neg hk]
      simp only [inputLookup]
      by_cases hk2 : k3 = k2
      · rw [if_pos hk2, if_pos hk2]
      · rw [if_neg hk2, if_neg hk2]
        exact ih

lemma hasKey_setInput_ne (inp : Inputs) (k v k2 : String) (hne : k2 ≠ k) :
    hasKey (setInput inp k v) k2 = hasKey inp k2 := by
  simp [hasKey, inputLookup_setInput_ne inp k v k2 hne]

lemma find_nodes_setNode :
    ∀ (w : Workflow) (id : String) (n m : Node) (ct : String),
      wGet? w id = some m → n.class_type = m.class_type →
      find_nodes (setNode w id n) ct = find_nodes w ct := by
  intro w id n m ct
  induction w with
  | nil => intro h _; simp [wGet?] at h
  | cons p rest ih =>
    obtain ⟨k, nd⟩ := p
    simp only [wGet?, setNode]
    by_cases hk : k = id
    · rw [if_pos hk, if_pos hk]
      intro h hcls
      have hnd : nd = m := by cases h; rfl
      subst hnd
      by_cases hct : nd.class_type = some ct
      · simp [find_nodes, List.filter_cons, hct, hcls]
      · simp [find_nodes, List.filter_cons, hct, hcls]
    · rw [if_neg hk, if_neg hk]
      intro h hcls
      have hrec := ih h hcls
      simp only [find_nodes, List.filter_cons] at hrec ⊢
      by_cases hct : nd.class_type = some ct
      · simp [hct, hrec]
      · simp [hct, hrec]

lemma find_nodes_sublist_keys (w : Workflow) (ct : String) :
    (find_nodes w ct).Sublist (w.map Prod.fst) := by
  unfold find_nodes
  exact List.Sublist.map Prod.fst (List.filter_sublist w)

lemma find_nodes_nodup {w : Workflow} (h : keysNodup w) (ct : String) :
    (find_nodes w ct).Nodup :=
  List.Nodup.sublist (find_nodes_sublist_keys w ct) h

lemma wGet?_some_of_mem_keys :
    ∀ (w : Workflow) (id : String), id ∈ w.map Prod.fst →
      ∃ n, wGet? w id = some n := by
  intro w id
  induction w with
  | nil => intro h; simp at h
  | cons p rest ih =>
    obtain ⟨k, nd⟩ := p
    intro h
    simp only [List.map_cons, List.mem_cons] at h
    by_cases hk : k = id
    · exact ⟨nd, by simp [wGet?, if_pos hk]⟩
    · rcases h with h | h
      · exact absurd h.symm hk
      · obtain ⟨n, hn⟩ := ih h
        exact ⟨n, by simp [wGet?, if_neg hk, hn]⟩

lemma setNodeInput_ok_spec {w : Workflow} {id k v : String} {w2 : Workflow}
    (h : setNodeInput w id k v = .ok w2) :
    ∃ n inp, wGet? w id = some n ∧ n.inputs = some inp ∧
      w2 = setNode w id { n with inputs := some (setInput inp k v) } := by
  unfold setNodeInput at h
  split at h
  · cases h
  · rename_i n heq
    split at h
    · cases h
    · rename_i inp heq2
      cases h
      exact ⟨n, inp, heq, heq2, rfl⟩

lemma setNodeInput_getInput_self {w : Workflow} {id k v : String} {w2 : Workflow}
    (h : setNodeInput w id k v = .ok w2) :
    getInput w2 id k = some v := by
  obtain ⟨n, inp, hg, hi, rfl⟩ := setNodeInput_ok_spec h
  unfold getInput
  rw [wGet?_setNode_self w id _ n hg]
  simp [inputLookup_setInput_self]

lemma setNodeInput_getInput_other {w : Workflow} {id k v : String} {w2 : Workflow}
    (h : setNodeInput w id k v = .ok w2)
    (id2 k2 : String) (hne : id2 ≠ id ∨ k2 ≠ k) :
    getInput w2 id2 k2 = getInput w id2 k2 := by
  obtain ⟨n, inp, hg, hi, rfl⟩ := setNodeInput_ok_spec h
  by_cases hid : id2 = id
  · subst hid
    rcases hne with h2 | h2
    · exact absurd rfl h2
    · unfold getInput
      rw [wGet?_setNode_self w id2 _ n hg, hg]
      simp [hi, inputLookup_setInput_ne inp k v k2 h2]
  · unfold getInput
    rw [wGet?_setNode_ne w id _ id2 hid]

lemma setNodeInput_find_nodes {w : Workflow} {id k v : String} {w2 : Workflow}
    (h : setNodeInput w id k v = .ok w2) (ct : String) :
    find_nodes w2 ct = find_nodes w ct := by
  obtain ⟨n, inp, hg, hi, rfl⟩ := setNodeInput_ok_spec h
  exact find_nodes_setNode w id _ n ct hg rfl

lemma setNodeInput_has_key_other {w : Workflow} {id k v : String} {w2 : Workflow}
    (h : setNodeInput w id k v = .ok w2)
    (id2 k2 : String) (hk2 : k2 ≠ k) :
    node_has_input_key w2 id2 k2 = node_has_input_key w id2 k2 := by
  obtain ⟨n, inp, hg, hi, rfl⟩ := setNodeInput_ok_spec h
  by_cases hid : id2 = id
  · subst hid
    unfold node_has_input_key
    rw [wGet?_setNode_self w id2 _ n hg, hg]
    simp [hi, hasKey_setInput_ne inp k v k2 hk2]
  · unfold node_has_input_key
    rw [wGet?_setNode_ne w id _ id2 hid]

lemma gemini_step_ok_spec {w : Workflow} {p : Option String} {w2 : Workflow}
    (h : gemini_step w p = .ok w2) :
    w2 = w ∨ ∃ id v, setNodeInput w id "prompt" v = .ok w2 := by
  unfold gemini_step at h
  split at h
  · rename_i gid heq
    split at h
    · exact Or.inr ⟨gid, p.getD "", h⟩
    · cases h; exact Or.inl rfl
  · cases h; exact Or.inl rfl

lemma video_prompt_step_ok_spec {w : Workflow} {p : Option String} {w2 : Workflow}
    (h : video_prompt_step w p = .ok w2) :
    w2 = w ∨ ∃ id v, setNodeInput w id "text" v = .ok w2 := by
  unfold video_prompt_step at h
  split at h
  · rename_i pid heq
    split at h
    · exact Or.inr ⟨pid, p.getD "", h⟩
    · cases h; exact Or.inl rfl
  · cases h; exact Or.inl rfl

lemma video_save_step_ok_spec {w : Workflow} {fp : Option String} {w2 : Workflow}
    (h : video_save_step w fp = .ok w2) :
    w2 = w ∨ ∃ id v, setNodeInput w id "filename_prefix" v = .ok w2 := by
  unfold video_save_step at h
  split at h
  · rename_i sid heq
    split at h
    · exact Or.inr ⟨sid, fp.getD "", h⟩
    · cases h; exact Or.inl rfl
  · cases h; exact Or.inl rfl

lemma preserve_getInput_of_or {w w2 : Workflow} {k0 : String}
    (h : w2 = w ∨ ∃ id v, setNodeInput w id k0 v = .ok w2)
    (id2 k2 : String) (hk : k2 ≠ k0) :
    getInput w2 id2 k2 = getInput w id2 k2 := by
  rcases h with rfl | ⟨id, v, hset⟩
  · rfl
  · exact setNodeInput_getInput_other hset id2 k2 (Or.inr hk)

lemma preserve_find_nodes_of_or {w w2 : Workflow} {k0 : String}
    (h : w2 = w ∨ ∃ id v, setNodeInput w id k0 v = .ok w2) (ct : String) :
    find_nodes w2 ct = find_nodes w ct := by
  rcases h with rfl | ⟨id, v, hset⟩
  · rfl
  · exact setNodeInput_find_nodes hset ct

lemma preserve_has_key_of_or {w w2 : Workflow} {k0 : String}
    (h : w2 = w ∨ ∃ id v, setNodeInput w id k0 v = .ok w2)
    (id2 k2 : String) (hk : k2 ≠ k0) :
    node_has_input_key w2 id2 k2 = node_has_input_key w id2 k2 := by
  rcases h with rfl | ⟨id, v, hset⟩
  · rfl
  · exact setNodeInput_has_key_other hset id2 k2 hk

lemma save_step_app_ok_spec {w : Workflow} {fp : Option String} {w2 : Workflow}
    (h : save_step_app w fp = .ok w2) :
    ∃ w4, (w4 = w ∨ ∃ id v, setNodeInput w id "filename_prefix" v = .ok w4) ∧
      (w2 = w4 ∨ ∃ id v, setNodeInput w4 id "format" v = .ok w2) := by
  unfold save_step_app at h
  split at h
  · cases h; exact ⟨w, Or.inl rfl, Or.inl rfl⟩
  · rename_i sid heq
    split at h
    · cases h; exact ⟨w, Or.inl rfl, Or.inl rfl⟩
    · split at h
      · cases h
      · rename_i w4 heq4
        have hw4 : w4 = w ∨ ∃ id v, setNodeInput w id "filename_prefix" v = .ok w4 := by
          by_cases hopt : optTruthy fp = true
          · rw [if_pos hopt] at heq4
            exact Or.inr ⟨sid, fp.getD "", heq4⟩
          · rw [if_neg hopt] at heq4
            cases heq4; exact Or.inl rfl
        refine ⟨w4, hw4, ?_⟩
        split at h
        · exact Or.inr ⟨sid, "mp4", h⟩
        · cases h; exact Or.inl rfl

lemma save_step_backend_ok_spec {w : Workflow} {fp : Option String} {w2 : Workflow}
    (h : save_step_backend w fp = .ok w2) :
    w2 = w ∨ ∃ id v, setNodeInput w id "filename_prefix" v = .ok w2 := by
  unfold save_step_backend at h
  split at h
  · cases h; exact Or.inl rfl
  · rename_i sid heq
    split at h
    · cases h; exact Or.inl rfl
    · split at h
      · exact Or.inr ⟨sid, fp.getD "", h⟩
      · cases h; exact Or.inl rfl

lemma save_step_app_getInput {w : Workflow} {fp : Option String} {w2 : Workflow}
    (h : save_step_app w fp = .ok w2) (id2 k2 : String)
    (h1 : k2 ≠ "filename_prefix") (h2 : k2 ≠ "format") :
    getInput w2 id2 k2 = getInput w id2 k2 := by
  obtain ⟨w4, hw4, hw2⟩ := save_step_app_ok_spec h
  rw [preserve_getInput_of_or hw2 id2 k2 h2, preserve_getInput_of_or hw4 id2 k2 h1]

lemma build_image_core_ok {w0 : Workflow} {c1 c2 : String} {p : Option String}
    {w3 : Workflow} (h : build_image_core w0 c1 c2 p = .ok w3) :
    ∃ n1 n2 rest w1 w2, find_loadimage_nodes w0 = .ok (n1 :: n2 :: rest) ∧
      setNodeInput w0 n1 "image" c1 = .ok w1 ∧
      setNodeInput w1 n2 "image" c2 = .ok w2 ∧
      gemini_step w2 p = .ok w3 := by
  unfold build_image_core at h
  split at h
  · cases h
  · cases h
  · cases h
  · rename_i n1 n2 rest heq
    split at h
    · cases h
    · rename_i w1 heq1
      split at h
      · cases h
      · rename_i w2 heq2
        exact ⟨n1, n2, rest, w1, w2, heq, heq1, heq2, h⟩

lemma build_image_core_preserve {w0 : Workflow} {c1 c2 : String} {p : Option String}
    {w3 : Workflow} (h : build_image_core w0 c1 c2 p = .ok w3) :
    (∀ ct, find_nodes w3 ct = find_nodes w0 ct) ∧
    (∀ id k, k ≠ "image" → k ≠ "prompt" →
      node_has_input_key w3 id k = node_has_input_key w0 id k) := by
  obtain ⟨n1, n2, rest, w1, w2, _, h1, h2, h3⟩ := build_image_core_ok h
  have hg := gemini_step_ok_spec h3
  constructor
  · intro ct
    rw [preserve_find_nodes_of_or hg ct, setNodeInput_find_nodes h2 ct,
        setNodeInput_find_nodes h1 ct]
  · intro id k hk1 hk2
    rw [preserve_has_key_of_or hg id k hk2,
        setNodeInput_has_key_other h2 id k hk1,
        setNodeInput_has_key_other h1 id k hk1]

lemma optTruthy_some_empty : optTruthy (some "") = false := by decide

lemma optTruthy_none : optTruthy none = false := rfl

lemma gemini_step_empty (w : Workflow) :
    gemini_step w (some "") = gemini_step w none := by
  unfold gemini_step
  cases hf : find_first_node w "GeminiImageNode" with
  | none => rfl
  | some gid => simp [optTruthy_some_empty, optTruthy_none]

lemma save_step_app_empty (w : Workflow) :
    save_step_app w (some "") = save_step_app w none := by
  unfold save_step_app
  cases hf : find_first_node w "SaveImage" with
  | none => rfl
  | some sid => simp [optTruthy_some_empty, optTruthy_none]

lemma video_prompt_step_empty (w : Workflow) :
    video_prompt_step w (some "") = video_prompt_step w none := by
  unfold video_prompt_step
  cases hf : find_positive_clip_node w with
  | none => rfl
  | some pid => simp [optTruthy_some_empty, optTruthy_none]

lemma video_save_step_empty (w : Workflow) :
    video_save_step w (some "") = video_save_step w none := by
  unfold video_save_step
  cases hf : find_first_node w "SaveVideo" with
  | none => rfl
  | some sid => simp [optTruthy_some_empty, optTruthy_none]

lemma build_image_core_empty_prompt (w : Workflow) (c1 c2 : String) :
    build_image_core w c1 c2 (some "") = build_image_core w c1 c2 none := by
  unfold build_image_core
  split
  · rfl
  · rfl
  · rfl
  · split
    · rfl
    · split
      · rfl
      · exact gemini_step_empty _

lemma find?_eq_filter_head? (p : String → Bool) :
    ∀ l : List String, l.find? p = (l.filter p).head? := by
  intro l
  induction l with
  | nil => rfl
  | cons a as ih =>
    cases h : p a with
    | true =>
      rw [List.find?_cons_of_pos _ h, List.filter_cons_of_pos h]
      rfl
    | false =>
      rw [List.find?_cons_of_neg _ (by simp [h]), List.filter_cons_of_neg (by simp [h]), ih]

lemma insSort_digit (load : List String)
    (hall : ∀ x ∈ load, pyIsDigit x = true) :
    (insSort pyKeyLE load).Pairwise (fun a b => pyInt a ≤ pyInt b) := by
  have hcongr : insSort pyKeyLE load
      = insSort (fun a b => decide (pyInt a ≤ pyInt b)) load := by
    apply insSort_congr
    intro x hx y hy
    unfold pyKeyLE
    rw [hall x hx, hall y hy]
    rfl
  rw [hcongr]
  apply insSort_pairwise (R := fun a b => pyInt a ≤ pyInt b)
  · intro x y h; exact of_decide_eq_true h
  · intro x y
    rcases Nat.le_total (pyInt x) (pyInt y) with h | h
    · exact Or.inl (decide_eq_true h)
    · exact Or.inr (decide_eq_true h)
  · intro x y z h1 h2; exact Nat.le_trans h1 h2

lemma insSort_nondigit_congr (load : List String)
    (hall : ∀ x ∈ load, pyIsDigit x = false) :
    insSort pyKeyLE load = insSort pyStrLE load := by
  apply insSort_congr
  intro x hx y hy
  unfold pyKeyLE
  rw [hall x hx]
  rfl

lemma insSort_strLE_pairwise (load : List String) :
    (insSort pyStrLE load).Pairwise (fun a b => pyStrLE a b = true) := by
  apply insSort_pairwise (R := fun a b => pyStrLE a b = true)
  · intro x y h; exact h
  · intro x y; exact charListLE_total x.data y.data
  · intro x y z h1 h2; exact charListLE_trans x.data y.data z.data h1 h2

lemma find_loadimage_not_mixed {w : Workflow}
    (h : (find_nodes w "LoadImage").any (fun x => !pyIsDigit x) = false) :
    find_loadimage_nodes w = .ok (insSort pyKeyLE (find_nodes w "LoadImage")) := by
  unfold find_loadimage_nodes
  rw [h, Bool.and_false, if_neg (by simp)]

lemma find_loadimage_all_digit {w : Workflow}
    (hall : ∀ x ∈ find_nodes w "LoadImage", pyIsDigit x = true) :
    ∃ l, find_loadimage_nodes w = .ok l ∧
      l.Perm (find_nodes w "LoadImage") ∧
      l.Pairwise (fun a b => pyInt a ≤ pyInt b) := by
  refine ⟨insSort pyKeyLE (find_nodes w "LoadImage"), ?_,
    insSort_perm _ _, insSort_digit _ hall⟩
  apply find_loadimage_not_mixed
  cases hany : (find_nodes w "LoadImage").any (fun x => !pyIsDigit x) with
  | false => rfl
  | true =>
    obtain ⟨x, hx, hpx⟩ := List.any_eq_true.mp hany
    rw [hall x hx] at hpx
    cases hpx

lemma build_image_empty_prompt (w : Workflow) (c1 c2 : String) (fp : Option String) :
    build_image_workflow w c1 c2 (some "") fp = build_image_workflow w c1 c2 none fp := by
  unfold build_image_workflow
  rw [build_image_core_empty_prompt]

lemma build_image_empty_fp (w : Workflow) (c1 c2 : String) (p : Option String) :
    build_image_workflow w c1 c2 p (some "") = build_image_workflow w c1 c2 p none := by
  unfold build_image_workflow
  split
  · rfl
  · exact save_step_app_empty _

lemma build_video_empty_prompt (w : Workflow) (img : String) (fp : Option String) :
    build_video_workflow w img (some "") fp = build_video_workflow w img none fp := by
  unfold build_video_workflow
  split
  · rfl
  · rfl
  · split
    · rfl
    · rw [video_prompt_step_empty]

lemma build_video_empty_fp (w : Workflow) (img : String) (p : Option String) :
    build_video_workflow w img p (some "") = build_video_workflow w img p none := by
  unfold build_video_workflow
  split
  · rfl
  · rfl
  · split
    · rfl
    · split
      · rfl
      · exact video_save_step_empty _

lemma find_loadimage_perm {w : Workflow} {l : List String}
    (h : find_loadimage_nodes w = .ok l) : l.Perm (find_nodes w "LoadImage") := by
  unfold find_loadimage_nodes at h
  split at h
  · cases h
  · cases h
    exact insSort_perm _ _

lemma build_image_core_images {w0 : Workflow} {c1 c2 : String} {p : Option String}
    {w3 : Workflow} {n1 n2 : String} {rest : List String}
    (hnd : keysNodup w0)
    (hfind : find_loadimage_nodes w0 = .ok (n1 :: n2 :: rest))
    (h : build_image_core w0 c1 c2 p = .ok w3) :
    getInput w3 n1 "image" = some c1 ∧ getInput w3 n2 "image" = some c2 := by
  obtain ⟨m1, m2, mrest, w1, w2, hf2, h1, h2, h3⟩ := build_image_core_ok h
  rw [hfind] at hf2
  injection hf2 with hl
  injection hl with e1 hl2
  injection hl2 with e2 e3
  subst e1
  subst e2
  have hne : n1 ≠ n2 := by
    have hperm := find_loadimage_perm hfind
    have hnodup : (n1 :: n2 :: rest).Nodup :=
      hperm.symm.nodup (find_nodes_nodup hnd "LoadImage")
    rcases List.nodup_cons.mp hnodup with ⟨hn1, _⟩
    exact fun he => hn1 (he ▸ List.mem_cons_self n2 rest)
  have hg1 : getInput w1 n1 "image" = some c1 := setNodeInput_getInput_self h1
  have hg2 : getInput w2 n2 "image" = some c2 := setNodeInput_getInput_self h2
  have hg1b : getInput w2 n1 "image" = some c1 := by
    rw [setNodeInput_getInput_other h2 n1 "image" (Or.inl hne), hg1]
  have hgem := gemini_step_ok_spec h3
  constructor
  · rw [preserve_getInput_of_or hgem n1 "image" (by decide), hg1b]
  · rw [preserve_getInput_of_or hgem n2 "image" (by decide), hg2]

lemma save_steps_agree {w : Workflow} (fp : Option String)
    (hq : no_format_quirk w = true) :
    save_step_app w fp = save_step_backend w fp := by
  cases hf : find_first_node w "SaveImage" with
  | none => simp only [save_step_app, save_step_backend, hf]
  | some sid =>
    unfold no_format_quirk at hq
    rw [hf] at hq
    have hq2 : (sid.isEmpty || !(node_has_input_key w sid "format")) = true := hq
    simp only [save_step_app, save_step_backend, hf]
    by_cases hemp : sid.isEmpty = true
    · rw [if_pos hemp, if_pos hemp]
    · rw [if_neg hemp, if_neg hemp]
      have hkey : node_has_input_key w sid "format" = false := by
        rcases Bool.or_eq_true_iff.mp hq2 with h | h
        · exact absurd h hemp
        · simpa using h
      by_cases hopt : optTruthy fp = true
      · rw [if_pos hopt]
        cases hset : setNodeInput w sid "filename_prefix" (fp.getD "") with
        | error e => rfl
        | ok w4 =>
          have hk4 : node_has_input_key w4 sid "format" = false := by
            rw [setNodeInput_has_key_other hset sid "format" (by decide), hkey]
          simp [hk4]
      · rw [if_neg hopt]
        simp [hkey]

/-- C1: for every loaded workflow graph with fewer than two LoadImage
nodes, `build_image_workflow` raises the structural `RuntimeError` whose
message lists the LoadImage node ids that were found, and it issues no
network call (its network-call trace is empty, in particular no upload and
no submit request). -/
theorem c1_structural_error_before_network
    (w : Workflow) (c1 c2 : String) (p fp : Option String)
    (h : (find_nodes w "LoadImage").length < 2) :
    build_image_workflow_net w c1 c2 p fp
      = (.error (structErrMsg (find_nodes w "LoadImage")), ([] : List NetCall)) := by
  have hmain : build_image_workflow w c1 c2 p fp
      = .error (structErrMsg (find_nodes w "LoadImage")) := by
    rcases hl : find_nodes w "LoadImage" with _ | ⟨a, _ | ⟨b, t⟩⟩
    · have hfl : find_loadimage_nodes w = .ok [] := by
        unfold find_loadimage_nodes
        rw [hl]
        simp [insSort]
      unfold build_image_workflow build_image_core
      rw [hfl]
    · have hfl : find_loadimage_nodes w = .ok [a] := by
        unfold find_loadimage_nodes
        rw [hl]
        have hc : ([a].any pyIsDigit && [a].any (fun x => !pyIsDigit x)) = false := by
          cases hd : pyIsDigit a <;> simp [hd]
        simp [hc, insSort, insertStable]
      unfold build_image_workflow build_image_core
      rw [hfl]
    · rw [hl] at h
      simp [List.length_cons] at h
      omega
  unfold build_image_workflow_net
  rw [hmain]

theorem c1_witness :
    (find_nodes gC1 "LoadImage").length < 2 ∧
    build_image_workflow_net gC1 "A" "B" none none
      = (.error (structErrMsg (find_nodes gC1 "LoadImage")), ([] : List NetCall)) :=
  ⟨by decide, c1_structural_error_before_network gC1 "A" "B" none none (by decide)⟩

/-- C2: on a graph whose node identifiers are all digit strings,
`find_loadimage_nodes` succeeds and returns the LoadImage node ids sorted
ascending by numeric value (a permutation of the found ids, pairwise
ordered by `int`); in particular ids "9", "10", "2" come back as
["2", "9", "10"], not in lexicographic string order. -/
theorem c2_numeric_sort :
    (∀ w : Workflow, (w.map Prod.fst).all pyIsDigit = true →
      ∃ l, find_loadimage_nodes w = .ok l ∧
        l.Perm (find_nodes w "LoadImage") ∧
        l.Pairwise (fun a b => pyInt a ≤ pyInt b)) ∧
    find_loadimage_nodes gC2 = .ok ["2", "9", "10"] := by
  constructor
  · intro w hall
    apply find_loadimage_all_digit
    intro x hx
    have hxk : x ∈ w.map Prod.fst :=
      (find_nodes_sublist_keys w "LoadImage").subset hx
    exact List.all_eq_true.mp hall x hxk
  · decide

theorem c2_numeric_sort_witness :
    (gC2.map Prod.fst).all pyIsDigit = true ∧
    ∃ l, find_loadimage_nodes gC2 = .ok l ∧
      l.Perm (find_nodes gC2 "LoadImage") ∧
      l.Pairwise (fun a b => pyInt a ≤ pyInt b) :=
  ⟨by decide, c2_numeric_sort.1 gC2 (by decide)⟩

/-- C3 counterexample: a graph mixing an all-digit LoadImage id ("2") with
a non-digit one ("x") makes `find_loadimage_nodes` raise `TypeError` (int
and str sort keys are not comparable in Python); it does not fall back to
lexicographic order and does not return a sorted list. -/
theorem c3_counterexample :
    find_loadimage_nodes gC3mixed = .error sortTypeErrMsg := by decide

/-- C3 amended: the sort key is numeric for all-digit ids, and sorting is
lexicographic when every id is non-digit, but for graphs mixing all-digit
and non-digit LoadImage ids the function raises `TypeError` instead of
returning a sorted list. -/
theorem c3_amended_sort_key (w : Workflow) :
    ((find_nodes w "LoadImage").all pyIsDigit = true →
      ∃ l, find_loadimage_nodes w = .ok l ∧
        l.Perm (find_nodes w "LoadImage") ∧
        l.Pairwise (fun a b => pyInt a ≤ pyInt b)) ∧
    ((find_nodes w "LoadImage").all (fun x => !pyIsDigit x) = true →
      ∃ l, find_loadimage_nodes w = .ok l ∧
        l.Perm (find_nodes w "LoadImage") ∧
        l.Pairwise (fun a b => pyStrLE a b = true)) ∧
    ((find_nodes w "LoadImage").any pyIsDigit = true →
      (find_nodes w "LoadImage").any (fun x => !pyIsDigit x) = true →
      find_loadimage_nodes w = .error sortTypeErrMsg) := by
  refine ⟨?_, ?_, ?_⟩
  · intro hall
    exact find_loadimage_all_digit (fun x hx => List.all_eq_true.mp hall x hx)
  · intro hall
    have hall2 : ∀ x ∈ find_nodes w "LoadImage", pyIsDigit x = false := by
      intro x hx
      have := List.all_eq_true.mp hall x hx
      simpa using this
    refine ⟨insSort pyKeyLE (find_nodes w "LoadImage"), ?_, insSort_perm _ _, ?_⟩
    · have hany : (find_nodes w "LoadImage").any pyIsDigit = false := by
        cases hany : (find_nodes w "LoadImage").any pyIsDigit with
        | false => rfl
        | true =>
          obtain ⟨x, hx, hpx⟩ := List.any_eq_true.mp hany
          rw [hall2 x hx] at hpx
          cases hpx
      unfold find_loadimage_nodes
      rw [hany]
      simp
    · rw [insSort_nondigit_congr _ hall2]
      exact insSort_strLE_pairwise _
  · intro h1 h2
    unfold find_loadimage_nodes
    rw [h1, h2]
    rfl

theorem c3_amended_sort_key_witness :
    (find_nodes gC3str "LoadImage").all (fun x => !pyIsDigit x) = true ∧
    (∃ l, find_loadimage_nodes gC3str = .ok l ∧
      l.Perm (find_nodes gC3str "LoadImage") ∧
      l.Pairwise (fun a b => pyStrLE a b = true)) :=
  ⟨by decide, (c3_amended_sort_key gC3str).2.1 (by decide)⟩

/-- C4: on a template whose sorted LoadImage list starts with n1 and n2,
whenever `build_image_workflow` succeeds it has assigned its first filename
argument to `inputs.image` of n1 and its second to `inputs.image` of n2
(for the witness template the image-loading ids are "3" and "7"). -/
theorem c4_image_assignment
    (w : Workflow) (c1 c2 : String) (p fp : Option String)
    (n1 n2 : String) (rest : List String) (w2 : Workflow)
    (hnd : keysNodup w)
    (hfind : find_loadimage_nodes w = .ok (n1 :: n2 :: rest))
    (hb : build_image_workflow w c1 c2 p fp = .ok w2) :
    getInput w2 n1 "image" = some c1 ∧ getInput w2 n2 "image" = some c2 := by
  unfold build_image_workflow at hb
  split at hb
  · cases hb
  · rename_i w3 hcore
    have himg := build_image_core_images hnd hfind hcore
    constructor
    · rw [save_step_app_getInput hb n1 "image" (by decide) (by decide)]
      exact himg.1
    · rw [save_step_app_getInput hb n2 "image" (by decide) (by decide)]
      exact himg.2

theorem c4_witness :
    keysNodup gC4 ∧
    find_loadimage_nodes gC4 = .ok ["3", "7"] ∧
    build_image_workflow gC4 "A" "B" none none = .ok gC4res ∧
    (getInput gC4res "3" "image" = some "A" ∧
     getInput gC4res "7" "image" = some "B") :=
  ⟨by unfold keysNodup; decide, by decide, by decide,
    c4_image_assignment gC4 "A" "B" none none "3" "7" [] gC4res
      (by unfold keysNodup; decide) (by decide) (by decide)⟩

/-- C5: `find_positive_clip_node` realises the claimed two-tier heuristic:
it equals the first-of-filter formulation (first text node whose title
contains "positive" case-insensitively, else the first whose text is
non-empty and free of "negative", else the first text node, else none);
on the two-node Negative/Positive graphs it returns the node titled
"Positive Prompt" in either mapping iteration order. -/
theorem c5_positive_clip_heuristic :
    (∀ w : Workflow, find_positive_clip_node w = find_positive_clip_node_spec w) ∧
    find_positive_clip_node gC5negpos = some "p" ∧
    find_positive_clip_node gC5posneg = some "p" := by
  refine ⟨?_, by decide, by decide⟩
  intro w
  simp only [find_positive_clip_node, find_positive_clip_node_spec,
    find?_eq_filter_head?]

/-- C6: whenever the Flask copy of `build_image_workflow` succeeds on a
template whose first SaveImage node has a truthy id and already carries a
`format` key in its inputs, the result has that node's `inputs.format`
forced to "mp4", for every combination of prompt and prefix arguments. -/
theorem c6_format_forced_mp4
    (w : Workflow) (c1 c2 : String) (p fp : Option String)
    (w2 : Workflow) (sid : String)
    (hb : build_image_workflow w c1 c2 p fp = .ok w2)
    (hs : find_first_node w "SaveImage" = some sid)
    (hne : sid.isEmpty = false)
    (hk : node_has_input_key w sid "format" = true) :
    getInput w2 sid "format" = some "mp4" := by
  unfold build_image_workflow at hb
  split at hb
  · cases hb
  · rename_i w3 hcore
    have hpres := build_image_core_preserve hcore
    have hs3 : find_first_node w3 "SaveImage" = some sid := by
      unfold find_first_node
      rw [hpres.1 "SaveImage"]
      exact hs
    have hk3 : node_has_input_key w3 sid "format" = true := by
      rw [hpres.2 sid "format" (by decide) (by decide)]
      exact hk
    unfold save_step_app at hb
    split at hb
    · rename_i heqn
      rw [hs3] at heqn
      cases heqn
    · rename_i sid2 heqs
      rw [hs3] at heqs
      injection heqs with he
      subst he
      have hni : ¬ (sid.isEmpty = true) := by
        rw [hne]
        exact Bool.false_ne_true
      rw [if_neg hni] at hb
      split at hb
      · cases hb
      · rename_i w4 heq4
        have hk4 : node_has_input_key w4 sid "format" = true := by
          by_cases hopt : optTruthy fp = true
          · rw [if_pos hopt] at heq4
            rw [setNodeInput_has_key_other heq4 sid "format" (by decide)]
            exact hk3
          · rw [if_neg hopt] at heq4
            cases heq4
            exact hk3
        rw [if_pos hk4] at hb
        exact setNodeInput_getInput_self hb

theorem c6_witness :
    build_image_workflow gC6 "A" "B" none none = .ok gC6res ∧
    find_first_node gC6 "SaveImage" = some "8" ∧
    ("8" : String).isEmpty = false ∧
    node_has_input_key gC6 "8" "format" = true ∧
    getInput gC6res "8" "format" = some "mp4" :=
  ⟨by decide, by decide, by decide, by decide,
    c6_format_forced_mp4 gC6 "A" "B" none none gC6res "8"
      (by decide) (by decide) (by decide) (by decide)⟩

/-- C7 counterexample: on the response with subfolder "output" and no
`name` field, `upload_image_to_comfy` raises `KeyError` instead of falling
back to the original display filename "photo.png" as the claim states. -/
theorem c7_counterexample :
    upload_image_to_comfy ⟨none, some "output"⟩ "photo.png" ≠ Except.ok "photo.png" ∧
    upload_image_to_comfy ⟨none, some "output"⟩ "photo.png" = .error "KeyError: name" :=
  ⟨by decide, by decide⟩

/-- C7 amended: the reference is "{subfolder}/{name}" for a non-empty
subfolder, the name alone otherwise; the fallback to the display filename
applies only when the subfolder is absent or empty, and a non-empty
subfolder with a missing name raises `KeyError`; the claim's two concrete
photo examples hold. -/
theorem c7_amended_upload_ref (sub n fn : String) :
    (sub.isEmpty = false →
      upload_image_to_comfy ⟨some n, some sub⟩ fn = .ok (sub ++ "/" ++ n)) ∧
    upload_image_to_comfy ⟨some n, none⟩ fn = .ok n ∧
    upload_image_to_comfy ⟨some n, some ""⟩ fn = .ok n ∧
    upload_image_to_comfy ⟨none, none⟩ fn = .ok fn ∧
    upload_image_to_comfy ⟨none, some ""⟩ fn = .ok fn ∧
    (sub.isEmpty = false →
      upload_image_to_comfy ⟨none, some sub⟩ fn = .error "KeyError: name") ∧
    upload_image_to_comfy ⟨some "photo_00001.png", some "output"⟩ "photo.png"
      = .ok "output/photo_00001.png" ∧
    upload_image_to_comfy ⟨some "photo_00001.png", none⟩ "photo.png"
      = .ok "photo_00001.png" := by
  refine ⟨?_, rfl, rfl, rfl, rfl, ?_, by decide, by decide⟩
  · intro h
    unfold upload_image_to_comfy
    simp [h]
  · intro h
    unfold upload_image_to_comfy
    simp [h]

theorem c7_amended_upload_ref_witness :
    ("output" : String).isEmpty = false ∧
    upload_image_to_comfy ⟨some "img.png", some "output"⟩ "disp.png"
      = .ok ("output" ++ "/" ++ "img.png") ∧
    upload_image_to_comfy ⟨none, some "output"⟩ "disp.png" = .error "KeyError: name" :=
  ⟨by decide,
    (c7_amended_upload_ref "output" "img.png" "disp.png").1 (by decide),
    (c7_amended_upload_ref "output" "img.png" "disp.png").2.2.2.2.2.1 (by decide)⟩

/-- C8 counterexample: on a template whose SaveImage node carries a
`format` key, the Flask copy and the backend copy of `build_image_workflow`
produce different graphs (the Flask copy forces format "mp4", the backend
copy leaves "png"). -/
theorem c8_counterexample :
    build_image_workflow gC8 "A" "B" none none
      ≠ build_image_workflow_backend gC8 "A" "B" none none := by decide

/-- C8 amended: the two near-duplicate copies compute equal output graphs
for every template and every argument combination, provided the template
has no SaveImage node, or its first SaveImage node has a falsy id or no
`format` key among its inputs (the one divergence is the Flask-only
format-to-"mp4" override). -/
theorem c8_amended_equivalence
    (w : Workflow) (c1 c2 : String) (p fp : Option String)
    (hq : no_format_quirk w = true) :
    build_image_workflow w c1 c2 p fp = build_image_workflow_backend w c1 c2 p fp := by
  unfold build_image_workflow build_image_workflow_backend
  cases hcore : build_image_core w c1 c2 p with
  | error e => rfl
  | ok w3 =>
    have hpres := build_image_core_preserve hcore
    have hq3 : no_format_quirk w3 = true := by
      unfold no_format_quirk at hq ⊢
      have hff : find_first_node w3 "SaveImage" = find_first_node w "SaveImage" := by
        unfold find_first_node
        rw [hpres.1 "SaveImage"]
      rw [hff]
      cases hf : find_first_node w "SaveImage" with
      | none => rfl
      | some sid =>
        rw [hf] at hq
        have hq2 : (sid.isEmpty || !(node_has_input_key w sid "format")) = true := hq
        show (sid.isEmpty || !(node_has_input_key w3 sid "format")) = true
        rw [hpres.2 sid "format" (by decide) (by decide)]
        exact hq2
    exact save_steps_agree fp hq3

theorem c8_amended_equivalence_witness :
    no_format_quirk gC8ok = true ∧
    build_image_workflow gC8ok "A" "B" none none
      = build_image_workflow_backend gC8ok "A" "B" none none :=
  ⟨by decide, c8_amended_equivalence gC8ok "A" "B" none none (by decide)⟩

/-- C9: both mutators treat an empty-string prompt or filename prefix
exactly like an absent one: the build with `some ""` equals the build with
`none` in each argument slot, so the prompt-bearing node, the positive
text node and the save node are left exactly as in the absent case. -/
theorem c9_empty_like_absent
    (w : Workflow) (c1 c2 img : String) (p fp : Option String) :
    build_image_workflow w c1 c2 (some "") fp = build_image_workflow w c1 c2 none fp ∧
    build_image_workflow w c1 c2 p (some "") = build_image_workflow w c1 c2 p none ∧
    build_video_workflow w img (some "") fp = build_video_workflow w img none fp ∧
    build_video_workflow w img p (some "") = build_video_workflow w img p none :=
  ⟨build_image_empty_prompt w c1 c2 fp, build_image_empty_fp w c1 c2 p,
   build_video_empty_prompt w img fp, build_video_empty_fp w img p⟩

/-- C10: `find_positive_clip_node` is total on malformed node records:
a missing or null `_meta` makes the title read as "", a missing or null
`inputs` or missing `text` key makes the text read as "", and on a graph
whose text-prompt nodes are all malformed this way it still returns the
first text-prompt node id (or none), never an error. -/
theorem c10_malformed_totality :
    (∀ (w : Workflow) (nid : String) (n : Node), wGet? w nid = some n →
      n.meta = none → title_of w nid = "") ∧
    (∀ (w : Workflow) (nid : String) (n : Node), wGet? w nid = some n →
      inputLookup (n.inputs.getD []) "text" = none → text_of w nid = "") ∧
    (∀ w : Workflow,
      (find_nodes w "CLIPTextEncode").all (clip_node_malformed w) = true →
      find_positive_clip_node w = (find_nodes w "CLIPTextEncode").head?) := by
  refine ⟨?_, ?_, ?_⟩
  · intro w nid n hg hm
    unfold title_of
    rw [hg]
    show (n.meta.bind NodeMeta.title).getD "" = ""
    rw [hm]
    rfl
  · intro w nid n hg ht
    unfold text_of
    rw [hg]
    show (inputLookup (n.inputs.getD []) "text").getD "" = ""
    rw [ht]
    rfl
  · intro w hall
    have hmal : ∀ nid ∈ find_nodes w "CLIPTextEncode", clip_node_malformed w nid = true :=
      fun nid h => List.all_eq_true.mp hall nid h
    have hboth : ∀ nid ∈ find_nodes w "CLIPTextEncode",
        has_positive_title w nid = false ∧ has_untagged_text w nid = false := by
      intro nid hm
      obtain ⟨n, hg⟩ := wGet?_some_of_mem_keys w nid
        ((find_nodes_sublist_keys w "CLIPTextEncode").subset hm)
      have hcm := hmal nid hm
      unfold clip_node_malformed at hcm
      rw [hg] at hcm
      have hcm2 : (n.meta.isNone && (inputLookup (n.inputs.getD []) "text").isNone) = true := hcm
      obtain ⟨hm1, hm2⟩ := Bool.and_eq_true_iff.mp hcm2
      have htitle : title_of w nid = "" := by
        unfold title_of
        rw [hg]
        show (n.meta.bind NodeMeta.title).getD "" = ""
        rw [Option.isNone_iff_eq_none.mp hm1]
        rfl
      have htext : text_of w nid = "" := by
        unfold text_of
        rw [hg]
        show (inputLookup (n.inputs.getD []) "text").getD "" = ""
        rw [Option.isNone_iff_eq_none.mp hm2]
        rfl
      constructor
      · unfold has_positive_title
        rw [htitle]
        decide
      · unfold has_untagged_text
        rw [htext]
        decide
    have h1n : (find_nodes w "CLIPTextEncode").find? (has_positive_title w) = none :=
      List.find?_eq_none.mpr (fun x hx => by simp [(hboth x hx).1])
    have h2n : (find_nodes w "CLIPTextEncode").find? (has_untagged_text w) = none :=
      List.find?_eq_none.mpr (fun x hx => by simp [(hboth x hx).2])
    simp only [find_positive_clip_node]
    rw [h1n, h2n]

theorem c10_witness :
    (find_nodes gC10 "CLIPTextEncode").all (clip_node_malformed gC10) = true ∧
    find_positive_clip_node gC10 = (find_nodes gC10 "CLIPTextEncode").head? ∧
    title_of gC10 "c" = "" ∧ text_of gC10 "c" = "" :=
  ⟨by decide, c10_malformed_totality.2.2 gC10 (by decide),
    c10_malformed_totality.1 gC10 "c" (clipNode none none) (by decide) (by decide),
    c10_malformed_totality.2.1 gC10 "c" (clipNode none none) (by decide) (by decide)⟩
